import Mathlib

/-!
Verification of the batching/dispatch/retry core of the `tooveo/atom-python`
event-ingestion client, as a shallow embedding of
`src/ironsource/atom/ironsource_atom_tracker.py` and
`src/ironsource/atom/request.py` in Lean.

Conventions of the embedding:
* Python `int` values (HTTP status codes, counters, byte sizes) are `Nat`.
* Python floats used for backoff durations are rationals `ℚ`; the value of
  `random.uniform(0, b)` is modelled as `b * u` for a unit sample
  `u ∈ [0, 1]`, which is exactly `uniform(0, b) = 0 + (b - 0) * random()`.
* Fallible calls are `Except`: an exception raised by a call is `.error`.
* The HTTP session and the backlog are external collaborators; they are
  modelled as oracles (functions given as parameters).
-/

namespace Atom

/-- Result of a `response.py`-level `Response` object: fields `error`,
`data` and `status` of `Response(error, data, status, raw)` as built by
`Request.post` / `Request.get` in `src/ironsource/atom/request.py`
(the `raw` field carries no information used by the tracker). -/
structure Response where
  error : Option String
  data : Option String
  status : Nat
  deriving DecidableEq, Repr

/-- Outcome of one call of the underlying HTTP session
(`self._session.post(...)` in `src/ironsource/atom/request.py`):
either a plain HTTP answer with a status code and body, or one of the
exception classes distinguished by `Request.post`'s `except` clauses. -/
inductive SessionResult where
  | ok (statusCode : Nat) (content : String)
  | connectionError
  | requestException
  | otherException (msg : String)
  deriving DecidableEq, Repr

/-- `Request.post` from `src/ironsource/atom/request.py` (lines 53-75):
a `requests.exceptions.ConnectionError` is caught and turned into a
`Response` with status 500 and error "No connection to server"; any other
`requests.exceptions.RequestException` is caught and turned into a
`Response` with status 400; any other exception propagates (`.error`).
On a plain answer, statuses in [200,400) give a success `Response`
(body in `data`), all others an error `Response` (body in `error`). -/
def requestPost : SessionResult → Except String Response
  | .ok statusCode content =>
      if 200 ≤ statusCode ∧ statusCode < 400 then
        .ok ⟨none, some content, statusCode⟩
      else
        .ok ⟨some content, none, statusCode⟩
  | .connectionError => .ok ⟨some "No connection to server", none, 500⟩
  | .requestException => .ok ⟨some "request exception", none, 400⟩
  | .otherException msg => .error msg

/-- Modelled from the spec: `IronSourceAtom.put_events` (its file is not
under `src/`; §6 of the spec gives the transport contract) forwards the
batch to the HTTP wrapper of `src/ironsource/atom/request.py` and returns
that wrapper's `Response`, letting any non-`requests` exception propagate.
It is therefore the composition with `requestPost`. -/
def putEvents (sessionOutcome : SessionResult) : Except String Response :=
  requestPost sessionOutcome

/-- Terminal fate of one execution of `_flush_data` for a batch. -/
inductive Outcome where
  | delivered
  | errorTerminal
  | requeued (stream authKey : String) (data : List String)
  deriving DecidableEq, Repr

/-- One invocation of `self._error_log(attempt, ..., status, ...)` recorded
during a delivery pass: its `attempt` and `status` arguments. -/
structure CallbackEvent where
  attempt : Nat
  status : Nat
  deriving DecidableEq, Repr

/-- Observable result of one execution of `_flush_data`: the terminal
outcome, the list of `_error_log` invocations in order, and how many times
`put_events` was called. -/
structure RunResult where
  outcome : Outcome
  callbacks : List CallbackEvent
  transportCalls : Nat
  deriving DecidableEq, Repr

/-- The `while attempt < self._retry_max_count` loop of
`IronSourceAtomTracker._flush_data`
(`src/ironsource/atom/ironsource_atom_tracker.py` lines 299-339), with the
transport modelled as an oracle giving the result of the `put_events` call
made at each attempt number.  The loop is driven structurally by
`remaining = retry_max_count - attempt`; `remaining = 0` is the loop guard
turning false, whose Python `while ... else` clause queues the batch back
(`self._batch_event_pool.add_event(lambda: self._flush_data(...))`).
Branches, in source order: an exception from `put_events` calls
`_error_log(attempt, ..., 400, e, data)` and returns; a status in
[200,500) either succeeds (< 400) or calls `_error_log(attempt, ...,
response.status, ...)` and returns; any other status sleeps a backoff
duration, increments `attempt` and calls `_error_log` with the
incremented attempt before looping. -/
def flushDataGo (stream authKey : String) (data : List String)
    (transport : Nat → Except String Response) :
    Nat → Nat → RunResult
  | _attempt, 0 => ⟨.requeued stream authKey data, [], 0⟩
  | attempt, remaining + 1 =>
      match transport attempt with
      | .error _e => ⟨.errorTerminal, [⟨attempt, 400⟩], 1⟩
      | .ok resp =>
          if 200 ≤ resp.status ∧ resp.status < 500 then
            if resp.status < 400 then ⟨.delivered, [], 1⟩
            else ⟨.errorTerminal, [⟨attempt, resp.status⟩], 1⟩
          else
            let r := flushDataGo stream authKey data transport (attempt + 1) remaining
            ⟨r.outcome, ⟨attempt + 1, resp.status⟩ :: r.callbacks, r.transportCalls + 1⟩

/-- `IronSourceAtomTracker._flush_data(stream, auth_key, data)`: the
delivery pass always starts with `attempt = 0` (line 305). -/
def flushData (retryMaxCount : Nat) (stream authKey : String)
    (data : List String) (transport : Nat → Except String Response) : RunResult :=
  flushDataGo stream authKey data transport 0 retryMaxCount

/-- A delivery pass whose transport is the real stack of the repository:
`put_events` delegating to `Request.post`, with the underlying HTTP
session modelled as an oracle indexed by call number. -/
def deliverBatch (retryMaxCount : Nat) (stream authKey : String)
    (data : List String) (session : Nat → SessionResult) : RunResult :=
  flushData retryMaxCount stream authKey data (fun i => putEvents (session i))

/-- `IronSourceAtomTracker._get_duration(attempt)`
(`src/ironsource/atom/ironsource_atom_tracker.py` lines 341-349):
`expo_backoff = min(retry_max_time, pow(2, attempt) * RETRY_EXPO_BACKOFF_BASE)`
followed by `random.uniform(0, expo_backoff)`, the latter modelled as
`expo_backoff * unitSample` with `unitSample ∈ [0, 1]`. -/
def getDuration (retryMaxTime expoBase : ℚ) (attempt : Nat) (unitSample : ℚ) : ℚ :=
  min retryMaxTime (2 ^ attempt * expoBase) * unitSample

/-- The exception classes distinguished by `_error_log`'s `try/except`:
Python's `TypeError` against every other exception class. -/
inductive PyExc where
  | typeError (msg : String)
  | otherExc (msg : String)
  deriving DecidableEq, Repr

/-- `IronSourceAtomTracker._error_log(attempt, unix_time, status, error_msg,
sent_data)` (`src/ironsource/atom/ironsource_atom_tracker.py` lines
364-380): it invokes the host callback as
`self._callback(unix_time, status, error_msg, sent_data)` inside a
`try/except TypeError` — a `TypeError` is caught and logged, after which
the routine logs the error and returns normally; an exception of any other
class is not caught and propagates out of `_error_log`. -/
def errorLog (callback : Nat → Nat → String → List String → Except PyExc Unit)
    (attempt unixTime status : Nat) (errorMsg : String) (sentData : List String) :
    Except PyExc Unit :=
  match callback unixTime status errorMsg sentData with
  | .ok _ => .ok ()
  | .error (.typeError _) => .ok ()
  | .error (.otherExc m) => .error (.otherExc m)

/-- Observable behaviour of one call of `IronSourceAtomTracker.stop`. -/
structure StopResult where
  flushAllSet : Bool
  sleeps : Nat
  finalIter : Nat
  workerHalted : Bool
  poolStopped : Bool
  deriving DecidableEq, Repr

/-- The polling loop of `IronSourceAtomTracker.stop`
(`src/ironsource/atom/ironsource_atom_tracker.py` lines 99-108): at
counter `i` it checks `(batch_event_pool.is_empty() and
event_backlog.is_empty()) or i == 5` (Python precedence: the `and` binds
tighter); on success it breaks, otherwise it increments `i`, sleeps one
second and loops.  `emptiness i` is the oracle giving the pair
`(pool-empty, backlog-empty)` observed at counter value `i`.  The
recursion is driven by explicit fuel; since `i` starts at 0 and the
`i == 5` disjunct forces the break, fuel 6 is never exhausted from the
entry point, so the fuel-0 row is unreachable there.  Returns the number
of sleeps performed and the final value of `i`. -/
def stopGo (emptiness : Nat → Bool × Bool) : Nat → Nat → Nat × Nat
  | _i, 0 => (0, 0)
  | i, fuel + 1 =>
      if ((emptiness i).1 && (emptiness i).2) || i == 5 then (0, i)
      else
        let r := stopGo emptiness (i + 1) fuel
        (r.1 + 1, r.2)

/-- `IronSourceAtomTracker.stop` (lines 93-108): sets
`self._is_flush_all = True`, runs the polling loop from `i = 0`, then (on
break) sets `self._is_run_worker = False` and calls
`self._batch_event_pool.stop()`. -/
def stop (emptiness : Nat → Bool × Bool) : StopResult :=
  let r := stopGo emptiness 0 6
  ⟨true, r.1, r.2, true, true⟩

/-- An `Event(stream, data)` object as appended to the backlog by `track`. -/
structure Event where
  stream : String
  data : String
  deriving DecidableEq, Repr

/-- `IronSourceAtomTracker.track(stream, data, auth_key)`
(`src/ironsource/atom/ironsource_atom_tracker.py` lines 199-220), acting
on the `_stream_keys` registry (a Python dict, modelled as an
insertion-ordered association list): an empty `auth_key` is replaced by
the global default `self._atom.get_auth()`; the registry gains the entry
only when the stream is not yet a key (`if stream not in
self._stream_keys`); the serialized record is appended to the backlog
(payloads are modelled as already-serialized strings, as `json.dumps`
makes them).  Returns the updated registry and the appended event. -/
def track (streamKeys : List (String × String)) (globalAuth stream data authKey : String) :
    List (String × String) × Event :=
  let key := if authKey.length = 0 then globalAuth else authKey
  let streamKeys0 :=
    if (streamKeys.lookup stream).isSome then streamKeys
    else streamKeys ++ [(stream, key)]
  (streamKeys0, ⟨stream, data⟩)

/-- A Delivery Task as handed to the batch pool by the `flush_data` closure:
the captured `stream`, `auth_key` and the snapshot `temp_buffer` of the
stream's buffer (`lambda: self._flush_data(stream, auth_key, temp_buffer)`). -/
structure DeliveryTask where
  stream : String
  authKey : String
  batch : List String
  deriving DecidableEq, Repr

/-- State of the `_tracker_handler` loop: the loop-local dicts
`events_buffer` and `events_size` (a dict is a partial map, `none` meaning
the key is absent), the shared flags `_is_flush_all` and `_is_flush_data`,
and the list of tasks handed to `_batch_event_pool.add_event`, in order. -/
structure AsmState where
  eventsBuffer : String → Option (List String)
  eventsSize : String → Option Nat
  isFlushAll : Bool
  isFlushData : Bool
  tasks : List DeliveryTask

/-- The state at the start of `_tracker_handler`: both dicts empty, no
task submitted yet, both flags initially `False` (lines 52-55). -/
def initialAsmState : AsmState :=
  ⟨fun _ => none, fun _ => none, false, false, []⟩

/-- Total UTF-8 byte size of a list of payloads;
`len(data.encode("utf8"))` summed. -/
def sumBytes (batch : List String) : Nat :=
  (batch.map String.utf8ByteSize).sum

/-- The closure `flush_data(stream, auth_key)` defined inside
`_tracker_handler` (`src/ironsource/atom/ironsource_atom_tracker.py`
lines 257-263): if `stream in events_buffer and len(events_buffer[stream])
> 0`, it snapshots the buffer into `temp_buffer`, clears the buffer in
place, zeroes `events_size[stream]` and submits the task to the batch
pool; otherwise it does nothing. -/
def flush_data (s : AsmState) (stream authKey : String) : AsmState :=
  match s.eventsBuffer stream with
  | some buf =>
      if 0 < buf.length then
        { s with
          eventsBuffer := Function.update s.eventsBuffer stream (some []),
          eventsSize := Function.update s.eventsSize stream (some 0),
          tasks := s.tasks ++ [⟨stream, authKey, buf⟩] }
      else s
  | none => s

/-- The per-stream body of the non-flush-all branch of `_tracker_handler`
(lines 271-293): one `get_event` result (`eventObj`, `none` when the
backlog had nothing for this stream, which `continue`s), dict entries
initialized to `0` / `[]` when absent, the size counter bumped by the
payload's UTF-8 byte length, the payload appended, and then the three
flush checks in source order: byte size `>= batch_bytes_size`, buffer
length `>= batch_size`, and the `_is_flush_data` flag. -/
def handleStream (batchBytesSize batchSize : Nat) (s : AsmState)
    (stream authKey : String) (eventObj : Option String) : AsmState :=
  match eventObj with
  | none => s
  | some data =>
      let sizes0 := if (s.eventsSize stream).isSome then s.eventsSize
                    else Function.update s.eventsSize stream (some 0)
      let bufs0 := if (s.eventsBuffer stream).isSome then s.eventsBuffer
                   else Function.update s.eventsBuffer stream (some [])
      let newSize := (sizes0 stream).getD 0 + data.utf8ByteSize
      let newBuf := (bufs0 stream).getD [] ++ [data]
      let s1 : AsmState :=
        { s with
          eventsSize := Function.update sizes0 stream (some newSize),
          eventsBuffer := Function.update bufs0 stream (some newBuf) }
      let s2 := if batchBytesSize ≤ newSize then flush_data s1 stream authKey else s1
      let s3 := if batchSize ≤ ((s2.eventsBuffer stream).getD []).length then
                  flush_data s2 stream authKey
                else s2
      if s3.isFlushData then flush_data s3 stream authKey else s3

/-- One iteration of the `while self._is_run_worker` loop of
`_tracker_handler` (lines 265-296).  When `_is_flush_all` is set, every
registered stream is flushed via the `flush_data` closure and the flag is
cleared after the whole pass; otherwise each registered stream is handled
by the per-stream body, with `fetch` the oracle for
`self._event_backlog.get_event(stream_name)` (that storage class is not
under `src/`; per the spec it is a per-stream FIFO whose `take` pops one
record or reports empty), and `_is_flush_data` is cleared at the end of
the pass when it was observed set. -/
def trackerHandlerPass (batchBytesSize batchSize : Nat)
    (streamKeys : List (String × String)) (fetch : String → Option String)
    (s : AsmState) : AsmState :=
  if s.isFlushAll then
    let s1 := streamKeys.foldl (fun st p => flush_data st p.1 p.2) s
    { s1 with isFlushAll := false }
  else
    let s1 := streamKeys.foldl
      (fun st p => handleStream batchBytesSize batchSize st p.1 p.2 (fetch p.1)) s
    if s1.isFlushData then { s1 with isFlushData := false } else s1

/-- A backlog oracle that offers one record `r` for `stream` and nothing
for any other stream. -/
def singleStreamFetch (stream r : String) : String → Option String :=
  fun t => if t = stream then some r else none

/-- A run of successive `_tracker_handler` iterations, one per entry of
`fetches` (the backlog oracle observed by each iteration). -/
def runPasses (batchBytesSize batchSize : Nat) (streamKeys : List (String × String))
    (fetches : List (String → Option String)) (s : AsmState) : AsmState :=
  fetches.foldl (fun st f => trackerHandlerPass batchBytesSize batchSize streamKeys f st) s

/-- The size-counter coherence invariant of the `_tracker_handler` loop:
for every stream, the `events_size` entry exists exactly when the
`events_buffer` entry does, and then equals the total UTF-8 byte size of
the buffered payloads. -/
def SizeInv (s : AsmState) : Prop :=
  ∀ stream, s.eventsSize stream = (s.eventsBuffer stream).map sumBytes

/-! ## Theorems about the retry/backoff engine -/

/-- Helper: when every attempt the loop can still make answers with a
server-error status (`≥ 500`), the loop runs through all its remaining
iterations, logs one error per retry, and ends in the requeue branch. -/
theorem flushDataGo_all_server_errors (stream authKey : String) (data : List String)
    (transport : Nat → Except String Response) :
    ∀ (remaining attempt : Nat),
      (∀ i, attempt ≤ i → i < attempt + remaining →
        ∃ resp, transport i = .ok resp ∧ 500 ≤ resp.status) →
      (flushDataGo stream authKey data transport attempt remaining).outcome
          = .requeued stream authKey data ∧
      (flushDataGo stream authKey data transport attempt remaining).callbacks.length
          = remaining := by
  intro remaining
  induction remaining with
  | zero => intro attempt _h; exact ⟨rfl, rfl⟩
  | succ n ih =>
      intro attempt h
      obtain ⟨resp, hcall, h500⟩ := h attempt (Nat.le_refl _) (by omega)
      have hcond : ¬ (200 ≤ resp.status ∧ resp.status < 500) := by omega
      have ihnext := ih (attempt + 1) (fun i h1 h2 => h i (by omega) (by omega))
      simp only [flushDataGo, hcall]
      rw [if_neg hcond]
      exact ⟨ihnext.1, by simpa using ihnext.2⟩

/-- C1: if every one of the `retry_max_count` attempts of a delivery pass
answers with a status `≥ 500`, the pass ends by resubmitting the entire
original batch — same stream, same credential, same payload list — as a
new task to the batch pool (it is never dropped), one error-callback
invocation having been made per attempt; and every delivery pass,
including the resubmitted one, starts with the attempt counter at 0
(`flushData` enters the loop at attempt 0 by definition). -/
theorem retry_exhaustion_requeues_batch (retryMaxCount : Nat) (stream authKey : String)
    (data : List String) (transport : Nat → Except String Response)
    (h : ∀ i, i < retryMaxCount → ∃ resp, transport i = .ok resp ∧ 500 ≤ resp.status) :
    (flushData retryMaxCount stream authKey data transport).outcome
        = .requeued stream authKey data ∧
    (flushData retryMaxCount stream authKey data transport).callbacks.length
        = retryMaxCount ∧
    ∀ transport2, flushData retryMaxCount stream authKey data transport2
        = flushDataGo stream authKey data transport2 0 retryMaxCount := by
  have hmain := flushDataGo_all_server_errors stream authKey data transport
    retryMaxCount 0 (fun i _ h2 => h i (by omega))
  exact ⟨hmain.1, hmain.2, fun _ => rfl⟩

/-- Witness for C1 at a transport that always answers 503 and
`retry_max_count = 3`. -/
theorem retry_exhaustion_requeues_batch_witness :
    (∀ i, i < 3 →
      ∃ resp, (fun _ : Nat => (.ok ⟨some "err", none, 503⟩ : Except String Response)) i
          = .ok resp ∧ 500 ≤ resp.status) ∧
    (flushData 3 "s" "k" ["d1", "d2"]
        (fun _ => .ok ⟨some "err", none, 503⟩)).outcome = .requeued "s" "k" ["d1", "d2"] :=
  ⟨fun _ _ => ⟨⟨some "err", none, 503⟩, rfl, by decide⟩,
   (retry_exhaustion_requeues_batch 3 "s" "k" ["d1", "d2"]
      (fun _ => .ok ⟨some "err", none, 503⟩)
      (fun _ _ => ⟨⟨some "err", none, 503⟩, rfl, by decide⟩)).1⟩

/-- C4: if the delivery attempt made at counter value `attempt` (the loop
still having iterations left) answers with a client-error status in
[400, 500), the pass is terminal right there: exactly one further
error-callback invocation is made (for that attempt and status), exactly
one further transport call happens (so no retry attempt follows), and the
result is the error-terminal outcome — in particular not a requeue. -/
theorem client_error_is_terminal (stream authKey : String) (data : List String)
    (transport : Nat → Except String Response) (attempt remaining : Nat)
    (resp : Response) (hcall : transport attempt = .ok resp)
    (h400 : 400 ≤ resp.status) (h500 : resp.status < 500) :
    flushDataGo stream authKey data transport attempt (remaining + 1)
      = ⟨.errorTerminal, [⟨attempt, resp.status⟩], 1⟩ := by
  simp only [flushDataGo, hcall]
  rw [if_pos ⟨by omega, h500⟩, if_neg (by omega)]

/-- Witness for C4 at a transport answering 404 on the first attempt. -/
theorem client_error_is_terminal_witness :
    ((fun _ : Nat => (.ok ⟨some "bad", none, 404⟩ : Except String Response)) 0
        = .ok ⟨some "bad", none, 404⟩) ∧
    400 ≤ (404 : Nat) ∧ (404 : Nat) < 500 ∧
    flushDataGo "s" "k" ["d"] (fun _ => .ok ⟨some "bad", none, 404⟩) 0 (2 + 1)
      = ⟨.errorTerminal, [⟨0, 404⟩], 1⟩ :=
  ⟨rfl, by omega, by omega,
   client_error_is_terminal "s" "k" ["d"] (fun _ => .ok ⟨some "bad", none, 404⟩) 0 2
     ⟨some "bad", none, 404⟩ rfl (by decide) (by decide)⟩

/-- C3 counterexample: a connection error is not terminal.  With the
repository's own HTTP wrapper (`Request.post` turns a
`requests.exceptions.ConnectionError` into a `Response` of status 500),
a session that always raises a connection error sends the delivery pass
through the server-error retry branch: with `retry_max_count = 2` the
error callback fires twice (not once), two transport calls are made (a
retry does happen), and the batch is requeued (not abandoned). -/
theorem connection_error_is_retried_cex :
    (deliverBatch 2 "s" "k" ["d"] (fun _ => .connectionError)).outcome
        = .requeued "s" "k" ["d"] ∧
    (deliverBatch 2 "s" "k" ["d"] (fun _ => .connectionError)).callbacks.length = 2 ∧
    (deliverBatch 2 "s" "k" ["d"] (fun _ => .connectionError)).transportCalls = 2 := by
  decide

/-- C3 amended: only an exception that propagates out of the transport
layer (one not converted to a `Response` by `Request.post`, i.e. not a
`requests` connection error or request exception) is terminal for the
delivery pass: the error callback is invoked exactly once (with the
hard-coded status 400), exactly one transport call is made (no retry),
and the batch is not requeued; a connection error instead becomes a
status-500 response and follows the retry/requeue path. -/
theorem transport_exception_is_terminal (stream authKey : String) (data : List String)
    (session : Nat → SessionResult) (attempt remaining : Nat) (msg : String)
    (h : session attempt = .otherException msg) :
    flushDataGo stream authKey data (fun i => putEvents (session i)) attempt (remaining + 1)
      = ⟨.errorTerminal, [⟨attempt, 400⟩], 1⟩ := by
  simp only [flushDataGo, h, putEvents, requestPost]

/-- Witness for the amended C3 at a session raising a non-`requests`
exception on the first attempt. -/
theorem transport_exception_is_terminal_witness :
    ((fun _ : Nat => SessionResult.otherException "boom") 0
        = .otherException "boom") ∧
    flushDataGo "s" "k" ["d"]
        (fun i => putEvents ((fun _ : Nat => SessionResult.otherException "boom") i)) 0 (4 + 1)
      = ⟨.errorTerminal, [⟨0, 400⟩], 1⟩ :=
  ⟨rfl,
   transport_exception_is_terminal "s" "k" ["d"]
     (fun _ => SessionResult.otherException "boom") 0 4 "boom" rfl⟩

/-- C5: for every attempt number `a`, a backoff duration drawn with unit
sample `u ∈ [0, 1]` lies in `[0, min(retry_max_time,
RETRY_EXPO_BACKOFF_BASE * 2^a)]`; in particular it never exceeds
`retry_max_time`, for arbitrarily large `a`. -/
theorem getDuration_bounds (retryMaxTime expoBase : ℚ) (attempt : Nat) (u : ℚ)
    (hu0 : 0 ≤ u) (hu1 : u ≤ 1) (hbase : 0 ≤ expoBase) (htime : 0 ≤ retryMaxTime) :
    0 ≤ getDuration retryMaxTime expoBase attempt u ∧
    getDuration retryMaxTime expoBase attempt u ≤ min retryMaxTime (expoBase * 2 ^ attempt) ∧
    getDuration retryMaxTime expoBase attempt u ≤ retryMaxTime := by
  have hpow : (0 : ℚ) ≤ 2 ^ attempt * expoBase :=
    mul_nonneg (by positivity) hbase
  have hmin : (0 : ℚ) ≤ min retryMaxTime (2 ^ attempt * expoBase) := le_min htime hpow
  have hle : getDuration retryMaxTime expoBase attempt u
      ≤ min retryMaxTime (2 ^ attempt * expoBase) := by
    calc min retryMaxTime (2 ^ attempt * expoBase) * u
        ≤ min retryMaxTime (2 ^ attempt * expoBase) * 1 :=
          mul_le_mul_of_nonneg_left hu1 hmin
      _ = min retryMaxTime (2 ^ attempt * expoBase) := mul_one _
  refine ⟨mul_nonneg hmin hu0, ?_, le_trans hle (min_le_left _ _)⟩
  calc getDuration retryMaxTime expoBase attempt u
      ≤ min retryMaxTime (2 ^ attempt * expoBase) := hle
    _ = min retryMaxTime (expoBase * 2 ^ attempt) := by rw [mul_comm (2 ^ attempt) expoBase]

/-- Witness for C5 at the spec's own example: attempt 20, base 500,
cap 60000, unit sample 1/2. -/
theorem getDuration_bounds_witness :
    (0 ≤ (1 / 2 : ℚ)) ∧ ((1 / 2 : ℚ) ≤ 1) ∧ (0 ≤ (500 : ℚ)) ∧ (0 ≤ (60000 : ℚ)) ∧
    (0 ≤ getDuration 60000 500 20 (1 / 2) ∧
     getDuration 60000 500 20 (1 / 2) ≤ min 60000 (500 * 2 ^ 20) ∧
     getDuration 60000 500 20 (1 / 2) ≤ 60000) :=
  ⟨by norm_num, by norm_num, by norm_num, by norm_num,
   getDuration_bounds 60000 500 20 (1 / 2)
     (by norm_num) (by norm_num) (by norm_num) (by norm_num)⟩

/-! ## Theorems about the error-reporting path -/

/-- C7 counterexample: `_error_log` catches only `TypeError`.  A host
callback that raises an exception of any other class makes `_error_log`
itself raise — the error-log routine does not return normally, and the
exception propagates out of the error-reporting path. -/
theorem errorLog_propagates_other_exception_cex :
    errorLog (fun _ _ _ _ => .error (.otherExc "boom")) 1 1700000000 500 "server error" ["d"]
      = .error (.otherExc "boom") ∧
    errorLog (fun _ _ _ _ => .error (.otherExc "boom")) 1 1700000000 500 "server error" ["d"]
      ≠ .ok () := by
  exact ⟨rfl, by simp [errorLog]⟩

/-- C7 amended: if the host callback raises a `TypeError` (e.g. due to a
mismatched signature) it is caught and logged and `_error_log` returns
normally — likewise when the callback returns normally; but an exception
of any other class propagates out of the error-reporting path unchanged. -/
theorem errorLog_catches_only_typeError
    (callback : Nat → Nat → String → List String → Except PyExc Unit)
    (attempt unixTime status : Nat) (errorMsg : String) (sentData : List String) :
    (∀ msg, callback unixTime status errorMsg sentData = .error (.typeError msg) →
        errorLog callback attempt unixTime status errorMsg sentData = .ok ()) ∧
    (callback unixTime status errorMsg sentData = .ok () →
        errorLog callback attempt unixTime status errorMsg sentData = .ok ()) ∧
    (∀ msg, callback unixTime status errorMsg sentData = .error (.otherExc msg) →
        errorLog callback attempt unixTime status errorMsg sentData
          = .error (.otherExc msg)) := by
  refine ⟨fun msg h => ?_, fun h => ?_, fun msg h => ?_⟩ <;>
    simp only [errorLog, h]

/-- Witness for the amended C7 at a callback raising a `TypeError`. -/
theorem errorLog_catches_only_typeError_witness :
    ((fun _ _ _ _ => (.error (.typeError "4 args expected") : Except PyExc Unit))
        (1700000000 : Nat) (500 : Nat) "server error" ["d"]
        = .error (.typeError "4 args expected")) ∧
    errorLog (fun _ _ _ _ => .error (.typeError "4 args expected"))
        1 1700000000 500 "server error" ["d"] = .ok () :=
  ⟨rfl,
   (errorLog_catches_only_typeError
      (fun _ _ _ _ => .error (.typeError "4 args expected"))
      1 1700000000 500 "server error" ["d"]).1 "4 args expected" rfl⟩

/-! ## Theorems about graceful stop -/

/-- Helper: the polling loop of `stop` sleeps at most `5 - i` times when
entered at counter `i` with fuel `6 - i`. -/
theorem stopGo_sleeps_le (emptiness : Nat → Bool × Bool) :
    ∀ (fuel i : Nat), i + fuel = 6 → (stopGo emptiness i fuel).1 ≤ 5 - i := by
  intro fuel
  induction fuel with
  | zero => intro i _h; simp [stopGo]
  | succ n ih =>
      intro i hi
      by_cases h : (((emptiness i).1 && (emptiness i).2) || i == 5) = true
      · simp [stopGo, h]
      · have hb : (((emptiness i).1 && (emptiness i).2) || i == 5) = false :=
          Bool.eq_false_iff.mpr h
        have hne : i ≠ 5 := by
          intro hcontra
          subst hcontra
          simp at hb
        have := ih (i + 1) (by omega)
        simp only [stopGo, hb, Bool.false_eq_true, if_false]
        omega

/-- C8: `stop` first sets the flush-all flag; if the batch pool and the
backlog both report empty at the very first check it halts the worker
flag and stops the pool with zero sleeps; and in every case it performs
at most 5 one-second sleeps before halting the worker flag and stopping
the pool, whatever the emptiness observations are. -/
theorem stop_terminates_bounded (emptiness : Nat → Bool × Bool) :
    (stop emptiness).flushAllSet = true ∧
    ((emptiness 0).1 = true → (emptiness 0).2 = true → (stop emptiness).sleeps = 0) ∧
    (stop emptiness).sleeps ≤ 5 ∧
    (stop emptiness).workerHalted = true ∧
    (stop emptiness).poolStopped = true := by
  refine ⟨rfl, fun h1 h2 => ?_, ?_, rfl, rfl⟩
  · simp [stop, stopGo, h1, h2]
  · simpa [stop] using stopGo_sleeps_le emptiness 6 0 rfl

/-- Witness for C8 at observations that are empty from the start. -/
theorem stop_terminates_bounded_witness :
    ((fun _ : Nat => (true, true)) 0).1 = true ∧
    ((fun _ : Nat => (true, true)) 0).2 = true ∧
    (stop (fun _ => (true, true))).sleeps = 0 ∧
    (stop (fun _ => (true, true))).sleeps ≤ 5 :=
  ⟨rfl, rfl, (stop_terminates_bounded (fun _ => (true, true))).2.1 rfl rfl,
   (stop_terminates_bounded (fun _ => (true, true))).2.2.1⟩

/-! ## Theorems about the stream-credential registry -/

/-- Helper: a key that `List.lookup` does not find in `l` is transparent
for lookup over `l ++ l2`. -/
theorem lookup_append_of_eq_none {α β : Type} [BEq α] (l l2 : List (α × β)) (a : α)
    (h : l.lookup a = none) : (l ++ l2).lookup a = l2.lookup a := by
  induction l with
  | nil => rfl
  | cons p t ih =>
      simp only [List.lookup, List.cons_append] at h ⊢
      cases hpa : (a == p.1) with
      | true => simp [hpa] at h
      | false => simp only [hpa] at h ⊢; exact ih h

/-- Helper: a key that `List.lookup` does not find is not among the first
components of the list. -/
theorem not_mem_keys_of_lookup_eq_none {α β : Type} [BEq α] [LawfulBEq α]
    (l : List (α × β)) (a : α) (h : l.lookup a = none) : a ∉ l.map Prod.fst := by
  induction l with
  | nil => simp
  | cons p t ih =>
      simp only [List.lookup] at h
      cases hpa : (a == p.1) with
      | true => simp [hpa] at h
      | false =>
          simp only [hpa] at h
          simp only [List.map_cons, List.mem_cons]
          rintro (rfl | hmem)
          · simp at hpa
          · exact ih h hmem

/-- C9: the `_stream_keys` registry maps a stream to the credential
supplied on the first `track` call for that stream (the global default
auth when the supplied key is empty); a later `track` call — whatever
non-empty credential it passes — leaves the registry exactly as it was;
and `track` preserves the at-most-once occurrence of each stream among
the registry's keys. -/
theorem track_first_credential_wins (streamKeys : List (String × String))
    (globalAuth stream data authKey : String) :
    (streamKeys.lookup stream = none →
        ((track streamKeys globalAuth stream data authKey).1).lookup stream
          = some (if authKey.length = 0 then globalAuth else authKey)) ∧
    (∀ k, streamKeys.lookup stream = some k →
        (track streamKeys globalAuth stream data authKey).1 = streamKeys) ∧
    ((streamKeys.map Prod.fst).Nodup →
        (((track streamKeys globalAuth stream data authKey).1).map Prod.fst).Nodup) := by
  refine ⟨fun h => ?_, fun k h => ?_, fun hnd => ?_⟩
  · simp only [track, h, Option.isSome_none, Bool.false_eq_true, if_false]
    rw [lookup_append_of_eq_none _ _ _ h]
    simp [List.lookup]
  · simp [track, h]
  · by_cases h : (streamKeys.lookup stream).isSome
    · simpa [track, h] using hnd
    · rw [Option.not_isSome_iff_eq_none] at h
      have hnm := not_mem_keys_of_lookup_eq_none streamKeys stream h
      simp only [track, h, Option.isSome_none, Bool.false_eq_true, if_false]
      rw [List.map_append, List.nodup_append]
      refine ⟨hnd, by simp, ?_⟩
      intro a ha hb
      simp only [List.map_cons, List.map_nil, List.mem_singleton] at hb
      subst hb
      exact hnm ha

/-- Witness for C9: a first submission for stream "B" with an empty
credential lands the global default in the registry. -/
theorem track_first_credential_wins_witness :
    (([("A", "k1")] : List (String × String)).lookup "B" = none) ∧
    ((track [("A", "k1")] "globalAuth" "B" "payload" "").1).lookup "B"
      = some (if ("" : String).length = 0 then "globalAuth" else "") :=
  ⟨rfl, (track_first_credential_wins [("A", "k1")] "globalAuth" "B" "payload" "").1 rfl⟩

/-! ## Theorems about the batch assembler -/

/-- Helper: appending one payload adds its UTF-8 byte length to the total. -/
theorem sumBytes_append (batch : List String) (data : String) :
    sumBytes (batch ++ [data]) = sumBytes batch + data.utf8ByteSize := by
  simp [sumBytes]

/-- Helper: the `flush_data` closure does nothing when the stream's buffer
is absent or holds zero records. -/
theorem flush_data_skip (s : AsmState) (stream authKey : String)
    (h : (s.eventsBuffer stream).getD [] = []) :
    flush_data s stream authKey = s := by
  cases hb : s.eventsBuffer stream with
  | none => simp [flush_data, hb]
  | some buf =>
      rw [hb, Option.getD_some] at h
      subst h
      simp [flush_data, hb]

/-- Helper: on a non-empty buffer, the `flush_data` closure snapshots the
buffer into a task, clears the buffer and zeroes the size counter. -/
theorem flush_data_emits (s : AsmState) (stream authKey : String) (buf : List String)
    (hb : s.eventsBuffer stream = some buf) (hne : buf ≠ []) :
    flush_data s stream authKey =
      { s with
        eventsBuffer := Function.update s.eventsBuffer stream (some []),
        eventsSize := Function.update s.eventsSize stream (some 0),
        tasks := s.tasks ++ [⟨stream, authKey, buf⟩] } := by
  simp [flush_data, hb, List.length_pos.mpr hne]

/-- Helper: the dict-entry initialization lines of the per-stream body
collapse, so `handleStream` on a fetched record acts on the `getD`-views
of the two dict entries. -/
theorem handleStream_some (batchBytesSize batchSize : Nat) (s : AsmState)
    (stream authKey data : String) :
    handleStream batchBytesSize batchSize s stream authKey (some data) =
      (let newSize := (s.eventsSize stream).getD 0 + data.utf8ByteSize
       let newBuf := (s.eventsBuffer stream).getD [] ++ [data]
       let s1 : AsmState :=
         { s with
           eventsSize := Function.update s.eventsSize stream (some newSize),
           eventsBuffer := Function.update s.eventsBuffer stream (some newBuf) }
       let s2 := if batchBytesSize ≤ newSize then flush_data s1 stream authKey else s1
       let s3 := if batchSize ≤ ((s2.eventsBuffer stream).getD []).length then
                   flush_data s2 stream authKey
                 else s2
       if s3.isFlushData then flush_data s3 stream authKey else s3) := by
  cases hsz : s.eventsSize stream <;> cases hbf : s.eventsBuffer stream <;>
    simp [handleStream, hsz, hbf, Function.update_idem, Function.update_same]

/-- Helper: when none of the three flush conditions holds after the
append, the per-stream body only appends: the payload joins the end of
the buffer, the size counter grows by its byte length, and no task is
submitted. -/
theorem handleStream_no_flush (batchBytesSize batchSize : Nat) (s : AsmState)
    (stream authKey data : String)
    (hsize : ¬ batchBytesSize ≤ (s.eventsSize stream).getD 0 + data.utf8ByteSize)
    (hcount : ¬ batchSize ≤ ((s.eventsBuffer stream).getD [] ++ [data]).length)
    (hflag : s.isFlushData = false) :
    handleStream batchBytesSize batchSize s stream authKey (some data) =
      { s with
        eventsSize := Function.update s.eventsSize stream
          (some ((s.eventsSize stream).getD 0 + data.utf8ByteSize)),
        eventsBuffer := Function.update s.eventsBuffer stream
          (some ((s.eventsBuffer stream).getD [] ++ [data])) } := by
  rw [handleStream_some]
  simp only [Function.update_same, Option.getD_some, if_neg hsize, hflag,
    Bool.false_eq_true, if_false, if_neg hcount]

/-- Helper: when at least one of the three flush conditions holds after
the append, the per-stream body flushes exactly once: the buffer holding
the appended payload becomes one task, the buffer is cleared, the size
counter is zeroed. -/
theorem handleStream_flush (batchBytesSize batchSize : Nat) (s : AsmState)
    (stream authKey data : String)
    (hcond : batchBytesSize ≤ (s.eventsSize stream).getD 0 + data.utf8ByteSize
      ∨ batchSize ≤ ((s.eventsBuffer stream).getD [] ++ [data]).length
      ∨ s.isFlushData = true) :
    handleStream batchBytesSize batchSize s stream authKey (some data) =
      { s with
        eventsSize := Function.update s.eventsSize stream (some 0),
        eventsBuffer := Function.update s.eventsBuffer stream (some []),
        tasks := s.tasks ++
          [⟨stream, authKey, (s.eventsBuffer stream).getD [] ++ [data]⟩] } := by
  rw [handleStream_some]
  dsimp only
  set newSize := (s.eventsSize stream).getD 0 + data.utf8ByteSize with hns
  set newBuf := (s.eventsBuffer stream).getD [] ++ [data] with hnb
  have hne : newBuf ≠ [] := by simp [hnb]
  set s1 : AsmState :=
    { s with
      eventsSize := Function.update s.eventsSize stream (some newSize),
      eventsBuffer := Function.update s.eventsBuffer stream (some newBuf) } with hs1
  have hb1 : s1.eventsBuffer stream = some newBuf := by
    simp [hs1, Function.update_same]
  have hemit : flush_data s1 stream authKey =
      { s with
        eventsSize := Function.update s.eventsSize stream (some 0),
        eventsBuffer := Function.update s.eventsBuffer stream (some []),
        tasks := s.tasks ++ [⟨stream, authKey, newBuf⟩] } := by
    rw [flush_data_emits s1 stream authKey newBuf hb1 hne]
    simp [hs1, Function.update_idem]
  have hFbuf :
      (({ s with
          eventsSize := Function.update s.eventsSize stream (some 0),
          eventsBuffer := Function.update s.eventsBuffer stream (some []),
          tasks := s.tasks ++ [⟨stream, authKey, newBuf⟩] }
        : AsmState).eventsBuffer stream).getD [] = [] := by
    simp [Function.update_same]
  have hFskip := flush_data_skip _ stream authKey hFbuf
  by_cases hA : batchBytesSize ≤ newSize
  · rw [if_pos hA, hemit]
    simp only [hFbuf, List.length_nil, hFskip, ite_self]
  · rw [if_neg hA]
    by_cases hB : batchSize ≤ newBuf.length
    · rw [hb1]
      simp only [Option.getD_some]
      rw [if_pos hB, hemit]
      simp only [hFskip, ite_self]
    · have hflag : s.isFlushData = true := by
        rcases hcond with h | h | h
        · exact absurd h hA
        · exact absurd h hB
        · exact h
      rw [hb1]
      simp only [Option.getD_some]
      rw [if_neg hB]
      have hs1flag : s1.isFlushData = true := hflag
      rw [hs1flag, if_pos rfl, hemit, hflag]

/-- C2: a stream's buffer becomes a Delivery Task exactly under the
claimed conditions.  In the per-stream body: with no record fetched the
state is untouched; after appending a record, a task is submitted — and
the buffer cleared, its byte counter zeroed — when the cumulative byte
size reaches the byte threshold, or the length reaches the count
threshold, or the manual-flush signal is pending, and only then (otherwise
the buffer simply grows and no task is submitted).  The `flush_data`
closure itself (used both here and by the flush-all pass) never produces
a task from a buffer holding zero records, and on a non-empty buffer
produces exactly one task and clears it.  Finally, a handler pass that
observes the flush-all signal clears it after processing every stream. -/
theorem flush_when_and_only_when (batchBytesSize batchSize : Nat) (s : AsmState)
    (stream authKey data : String) (streamKeys : List (String × String))
    (fetch : String → Option String) :
    (handleStream batchBytesSize batchSize s stream authKey none = s) ∧
    ((batchBytesSize ≤ (s.eventsSize stream).getD 0 + data.utf8ByteSize
        ∨ batchSize ≤ ((s.eventsBuffer stream).getD [] ++ [data]).length
        ∨ s.isFlushData = true) →
      (handleStream batchBytesSize batchSize s stream authKey (some data)).tasks
          = s.tasks ++ [⟨stream, authKey, (s.eventsBuffer stream).getD [] ++ [data]⟩] ∧
      (handleStream batchBytesSize batchSize s stream authKey (some data)).eventsBuffer stream
          = some [] ∧
      (handleStream batchBytesSize batchSize s stream authKey (some data)).eventsSize stream
          = some 0) ∧
    (¬ (batchBytesSize ≤ (s.eventsSize stream).getD 0 + data.utf8ByteSize
        ∨ batchSize ≤ ((s.eventsBuffer stream).getD [] ++ [data]).length
        ∨ s.isFlushData = true) →
      (handleStream batchBytesSize batchSize s stream authKey (some data)).tasks = s.tasks ∧
      (handleStream batchBytesSize batchSize s stream authKey (some data)).eventsBuffer stream
          = some ((s.eventsBuffer stream).getD [] ++ [data]) ∧
      (handleStream batchBytesSize batchSize s stream authKey (some data)).eventsSize stream
          = some ((s.eventsSize stream).getD 0 + data.utf8ByteSize)) ∧
    ((s.eventsBuffer stream).getD [] = [] → flush_data s stream authKey = s) ∧
    (∀ buf, s.eventsBuffer stream = some buf → buf ≠ [] →
      (flush_data s stream authKey).tasks = s.tasks ++ [⟨stream, authKey, buf⟩] ∧
      (flush_data s stream authKey).eventsBuffer stream = some [] ∧
      (flush_data s stream authKey).eventsSize stream = some 0) ∧
    (s.isFlushAll = true →
      (trackerHandlerPass batchBytesSize batchSize streamKeys fetch s).isFlushAll = false) := by
  refine ⟨rfl, fun hcond => ?_, fun hcond => ?_, fun h => flush_data_skip s stream authKey h,
    fun buf hb hne => ?_, fun hall => ?_⟩
  · rw [handleStream_flush batchBytesSize batchSize s stream authKey data hcond]
    exact ⟨rfl, Function.update_same .., Function.update_same ..⟩
  · push_neg at hcond
    obtain ⟨h1, h2, h3⟩ := hcond
    rw [handleStream_no_flush batchBytesSize batchSize s stream authKey data
      (not_le.mpr h1) (not_le.mpr h2) (Bool.eq_false_iff.mpr h3)]
    exact ⟨rfl, Function.update_same .., Function.update_same ..⟩
  · rw [flush_data_emits s stream authKey buf hb hne]
    exact ⟨rfl, Function.update_same .., Function.update_same ..⟩
  · simp [trackerHandlerPass, hall]

/-- Witness for C2: with a count threshold of 1, appending one record to
an empty buffer produces exactly one task holding that record. -/
theorem flush_when_and_only_when_witness :
    ((100 : Nat) ≤ (initialAsmState.eventsSize "S").getD 0 + "abc".utf8ByteSize
      ∨ (1 : Nat) ≤ ((initialAsmState.eventsBuffer "S").getD [] ++ ["abc"]).length
      ∨ initialAsmState.isFlushData = true) ∧
    (handleStream 100 1 initialAsmState "S" "K" (some "abc")).tasks
      = initialAsmState.tasks
          ++ [⟨"S", "K", (initialAsmState.eventsBuffer "S").getD [] ++ ["abc"]⟩] :=
  ⟨Or.inr (Or.inl (by decide)),
   ((flush_when_and_only_when 100 1 initialAsmState "S" "K" "abc" [] (fun _ => none)).2.1
      (Or.inr (Or.inl (by decide)))).1⟩

/-- Helper: `flush_data` preserves the size-counter invariant. -/
theorem sizeInv_flush_data (s : AsmState) (stream authKey : String) (h : SizeInv s) :
    SizeInv (flush_data s stream authKey) := by
  intro t
  cases hb : s.eventsBuffer stream with
  | none => rw [flush_data_skip s stream authKey (by rw [hb]; rfl)]; exact h t
  | some buf =>
      by_cases hne : buf = []
      · rw [flush_data_skip s stream authKey (by rw [hb, hne]; rfl)]; exact h t
      · rw [flush_data_emits s stream authKey buf hb hne]
        by_cases ht : t = stream
        · subst ht; simp [Function.update_same, sumBytes]
        · simp only [Function.update_noteq ht]; exact h t

/-- Helper: a conditional `flush_data` preserves the size-counter
invariant. -/
theorem sizeInv_ite (c : Prop) [Decidable c] (st : AsmState) (stream authKey : String)
    (hst : SizeInv st) : SizeInv (if c then flush_data st stream authKey else st) := by
  split
  · exact sizeInv_flush_data st stream authKey hst
  · exact hst

/-- Helper: the per-stream body preserves the size-counter invariant. -/
theorem sizeInv_handleStream (batchBytesSize batchSize : Nat) (s : AsmState)
    (stream authKey : String) (eventObj : Option String) (h : SizeInv s) :
    SizeInv (handleStream batchBytesSize batchSize s stream authKey eventObj) := by
  cases eventObj with
  | none => exact h
  | some data =>
      rw [handleStream_some]
      dsimp only
      have happ : SizeInv
          { s with
            eventsSize := Function.update s.eventsSize stream
              (some ((s.eventsSize stream).getD 0 + data.utf8ByteSize)),
            eventsBuffer := Function.update s.eventsBuffer stream
              (some ((s.eventsBuffer stream).getD [] ++ [data])) } := by
        intro t
        by_cases ht : t = stream
        · subst ht
          simp only [Function.update_same, Option.map_some]
          have hinv := h t
          cases hb : s.eventsBuffer t with
          | none =>
              simp only [hb] at hinv
              rw [hinv]
              simp [sumBytes]
          | some buf =>
              simp only [hb] at hinv
              rw [hinv]
              simp [sumBytes_append]
        · simp only [Function.update_noteq ht]; exact h t
      exact sizeInv_ite _ _ _ _ (sizeInv_ite _ _ _ _ (sizeInv_ite _ _ _ _ happ))

/-- Helper: a fold of an invariant-preserving step preserves the
size-counter invariant. -/
theorem sizeInv_foldl (f : AsmState → String × String → AsmState)
    (hf : ∀ st p, SizeInv st → SizeInv (f st p)) :
    ∀ (keys : List (String × String)) (s : AsmState), SizeInv s → SizeInv (keys.foldl f s) := by
  intro keys
  induction keys with
  | nil => intro s hs; exact hs
  | cons p t ih => intro s hs; exact ih _ (hf s p hs)

/-- Helper: one full handler pass preserves the size-counter invariant. -/
theorem sizeInv_trackerHandlerPass (batchBytesSize batchSize : Nat)
    (keys : List (String × String)) (fetch : String → Option String) (s : AsmState)
    (h : SizeInv s) :
    SizeInv (trackerHandlerPass batchBytesSize batchSize keys fetch s) := by
  unfold trackerHandlerPass
  by_cases hall : s.isFlushAll = true
  · rw [if_pos hall]
    exact sizeInv_foldl _ (fun st p hst => sizeInv_flush_data st p.1 p.2 hst) keys s h
  · rw [if_neg hall]
    have h1 := sizeInv_foldl _
      (fun st p hst => sizeInv_handleStream batchBytesSize batchSize st p.1 p.2 (fetch p.1) hst)
      keys s h
    dsimp only
    split
    · exact h1
    · exact h1

/-- C10: the byte-size counters of the assembler loop track the buffers:
whenever a stream's buffer entry is present, its size entry equals the
sum of the UTF-8 byte lengths of the buffered payloads — and this
coherence (stated as `SizeInv`: the size dict is the pointwise
`sumBytes`-image of the buffer dict) is preserved by the per-stream
append body, by a `flush_data` (which empties the buffer and zeroes the
counter), and by a whole handler pass. -/
theorem size_counter_invariant (batchBytesSize batchSize : Nat) (s : AsmState)
    (stream authKey : String) (eventObj : Option String)
    (keys : List (String × String)) (fetch : String → Option String)
    (h : SizeInv s) :
    SizeInv (handleStream batchBytesSize batchSize s stream authKey eventObj) ∧
    SizeInv (flush_data s stream authKey) ∧
    SizeInv (trackerHandlerPass batchBytesSize batchSize keys fetch s) ∧
    (∀ t buf, s.eventsBuffer t = some buf → s.eventsSize t = some (sumBytes buf)) :=
  ⟨sizeInv_handleStream batchBytesSize batchSize s stream authKey eventObj h,
   sizeInv_flush_data s stream authKey h,
   sizeInv_trackerHandlerPass batchBytesSize batchSize keys fetch s h,
   fun t buf hb => by rw [h t, hb]; rfl⟩

/-- Witness for C10 at the initial assembler state. -/
theorem size_counter_invariant_witness :
    SizeInv initialAsmState ∧
    SizeInv (handleStream 100 10 initialAsmState "S" "K" (some "abc")) :=
  ⟨fun _ => rfl,
   (size_counter_invariant 100 10 initialAsmState "S" "K" (some "abc") []
      (fun _ => none) (fun _ => rfl)).1⟩

/-- Helper: `sumBytes` over a cons. -/
theorem sumBytes_cons (data : String) (rs : List String) :
    sumBytes (data :: rs) = data.utf8ByteSize + sumBytes rs := by
  simp [sumBytes]

/-- Helper: feeding records for one stream below both thresholds, with
both flush signals clear, only accumulates them at the end of the
stream's buffer, submits no task and leaves both signals clear. -/
theorem runPasses_single_accum (batchBytesSize batchSize : Nat) (stream authKey : String) :
    ∀ (rs : List String) (s : AsmState),
      s.isFlushAll = false → s.isFlushData = false →
      (s.eventsSize stream).getD 0 = sumBytes ((s.eventsBuffer stream).getD []) →
      sumBytes ((s.eventsBuffer stream).getD []) + sumBytes rs < batchBytesSize →
      ((s.eventsBuffer stream).getD []).length + rs.length < batchSize →
      ((runPasses batchBytesSize batchSize [(stream, authKey)]
          (rs.map (singleStreamFetch stream)) s).eventsBuffer stream).getD []
          = (s.eventsBuffer stream).getD [] ++ rs ∧
      (runPasses batchBytesSize batchSize [(stream, authKey)]
          (rs.map (singleStreamFetch stream)) s).tasks = s.tasks ∧
      (runPasses batchBytesSize batchSize [(stream, authKey)]
          (rs.map (singleStreamFetch stream)) s).isFlushAll = false ∧
      (runPasses batchBytesSize batchSize [(stream, authKey)]
          (rs.map (singleStreamFetch stream)) s).isFlushData = false := by
  intro rs
  induction rs with
  | nil =>
      intro s hfa hfd _hsz _hb _hc
      exact ⟨by simp [runPasses], rfl, hfa, hfd⟩
  | cons r rest ih =>
      intro s hfa hfd hsz hbytes hcount
      have hrbytes : sumBytes (r :: rest) = r.utf8ByteSize + sumBytes rest :=
        sumBytes_cons r rest
      have hsizecond : ¬ batchBytesSize ≤ (s.eventsSize stream).getD 0 + r.utf8ByteSize := by
        rw [hsz]
        omega
      have hcountcond :
          ¬ batchSize ≤ ((s.eventsBuffer stream).getD [] ++ [r]).length := by
        simp only [List.length_append, List.length_singleton]
        simp only [List.length_cons] at hcount
        omega
      have hpass : trackerHandlerPass batchBytesSize batchSize [(stream, authKey)]
          (singleStreamFetch stream r) s =
          { s with
            eventsSize := Function.update s.eventsSize stream
              (some ((s.eventsSize stream).getD 0 + r.utf8ByteSize)),
            eventsBuffer := Function.update s.eventsBuffer stream
              (some ((s.eventsBuffer stream).getD [] ++ [r])) } := by
        unfold trackerHandlerPass
        rw [if_neg (by rw [hfa]; exact Bool.false_ne_true)]
        dsimp only [List.foldl]
        rw [show singleStreamFetch stream r stream = some r by simp [singleStreamFetch]]
        rw [handleStream_no_flush batchBytesSize batchSize s stream authKey r
          hsizecond hcountcond hfd]
        rw [if_neg (by rw [hfd]; exact Bool.false_ne_true)]
      have hstep : runPasses batchBytesSize batchSize [(stream, authKey)]
          ((r :: rest).map (singleStreamFetch stream)) s
          = runPasses batchBytesSize batchSize [(stream, authKey)]
              (rest.map (singleStreamFetch stream))
              { s with
                eventsSize := Function.update s.eventsSize stream
                  (some ((s.eventsSize stream).getD 0 + r.utf8ByteSize)),
                eventsBuffer := Function.update s.eventsBuffer stream
                  (some ((s.eventsBuffer stream).getD [] ++ [r])) } := by
        simp only [runPasses, List.map_cons, List.foldl_cons]
        rw [hpass]
      rw [hstep]
      have hnext := ih
        { s with
          eventsSize := Function.update s.eventsSize stream
            (some ((s.eventsSize stream).getD 0 + r.utf8ByteSize)),
          eventsBuffer := Function.update s.eventsBuffer stream
            (some ((s.eventsBuffer stream).getD [] ++ [r])) }
        hfa hfd
        (by
          simp only [Function.update_same, Option.getD_some]
          rw [hsz, sumBytes_append])
        (by
          simp only [Function.update_same, Option.getD_some]
          rw [sumBytes_append]
          omega)
        (by
          simp only [Function.update_same, Option.getD_some, List.length_append,
            List.length_singleton]
          simp only [List.length_cons] at hcount
          omega)
      simp only [Function.update_same, Option.getD_some] at hnext
      obtain ⟨hb1, hb2, hb3, hb4⟩ := hnext
      refine ⟨?_, hb2, hb3, hb4⟩
      rw [hb1, List.append_assoc]
      rfl

/-- C6: all records submitted for a stream before a flush end up, in
submission order and nothing else, in the single Delivery Task the flush
produces: feeding the records below both thresholds buffers them without
producing any task, and the following flush-all pass produces exactly one
task carrying exactly that payload list in order. -/
theorem task_preserves_submission_order (batchBytesSize batchSize : Nat)
    (stream authKey : String) (rs : List String) (hne : rs ≠ [])
    (hbytes : sumBytes rs < batchBytesSize) (hcount : rs.length < batchSize) :
    (runPasses batchBytesSize batchSize [(stream, authKey)]
        (rs.map (singleStreamFetch stream)) initialAsmState).tasks = [] ∧
    (trackerHandlerPass batchBytesSize batchSize [(stream, authKey)] (fun _ => none)
        { runPasses batchBytesSize batchSize [(stream, authKey)]
            (rs.map (singleStreamFetch stream)) initialAsmState
          with isFlushAll := true }).tasks = [⟨stream, authKey, rs⟩] := by
  have hacc := runPasses_single_accum batchBytesSize batchSize stream authKey rs
    initialAsmState rfl rfl (by simp [initialAsmState, sumBytes])
    (by simpa [initialAsmState, sumBytes] using hbytes)
    (by simpa [initialAsmState] using hcount)
  obtain ⟨hbuf, htasks0, _hfa, _hfd⟩ := hacc
  rw [show (initialAsmState.eventsBuffer stream).getD [] = [] from rfl,
    List.nil_append] at hbuf
  have htasks : (runPasses batchBytesSize batchSize [(stream, authKey)]
      (rs.map (singleStreamFetch stream)) initialAsmState).tasks = [] := htasks0
  have hsome : (runPasses batchBytesSize batchSize [(stream, authKey)]
      (rs.map (singleStreamFetch stream)) initialAsmState).eventsBuffer stream = some rs := by
    cases hb : (runPasses batchBytesSize batchSize [(stream, authKey)]
        (rs.map (singleStreamFetch stream)) initialAsmState).eventsBuffer stream with
    | none =>
        rw [hb] at hbuf
        simp only [Option.getD_none] at hbuf
        exact absurd hbuf.symm hne
    | some l =>
        rw [hb] at hbuf
        simp only [Option.getD_some] at hbuf
        rw [hbuf]
  refine ⟨htasks, ?_⟩
  unfold trackerHandlerPass
  rw [if_pos rfl]
  dsimp only [List.foldl]
  rw [flush_data_emits
    { runPasses batchBytesSize batchSize [(stream, authKey)]
        (rs.map (singleStreamFetch stream)) initialAsmState with isFlushAll := true }
    stream authKey rs hsome hne]
  simp [htasks]

/-- Witness for C6 at two concrete records. -/
theorem task_preserves_submission_order_witness :
    ((["a", "bb"] : List String) ≠ []) ∧ sumBytes ["a", "bb"] < 10 ∧
    (["a", "bb"] : List String).length < 5 ∧
    (trackerHandlerPass 10 5 [("S", "K")] (fun _ => none)
        { runPasses 10 5 [("S", "K")] (["a", "bb"].map (singleStreamFetch "S"))
            initialAsmState
          with isFlushAll := true }).tasks = [⟨"S", "K", ["a", "bb"]⟩] :=
  ⟨by decide, by decide, by decide,
   (task_preserves_submission_order 10 5 "S" "K" ["a", "bb"]
      (by decide) (by decide) (by decide)).2⟩

end Atom
